import Mathlib

/-!
Verification development for the `selprotopy` SEL-protocol client.

The embedding covers the two source modules:

* `selprotopy/common.py` — the binary primitives `int_to_bool_list` and
  `ieee4bytefps`;
* `selprotopy/__init__.py` — the `SelClient` session logic: `access_level`,
  `access_level_1`, `autoconfig` (with its three `autoconfig_fastmeter*`
  helpers) and `poll_fast_meter`.

The transport (telnet/serial) and the block parsers (`protoparser`) are
external collaborators of the client; they are modelled as parameters:
byte-string constants from the `commands` module become `List Nat`
arguments, the bytes read from the transport become explicit response
arguments, and each parser invocation inside `autoconfig` becomes an
`Except`-valued oracle recording whether that parse succeeded and with
which structured value.  Python exceptions are modelled with an explicit
error type: a raised exception aborts the remaining statements of the
method, and the object state mutated so far is kept (Python has no
rollback), which the state-passing definitions reproduce.
-/

namespace Selprotopy

/-- Error conditions raised by the embedded code.  `notConfigured` models the
`ValueError("Client has not been auto-configured yet!")` guard,
`attributeError` models Python's `AttributeError` on reading a never-assigned
attribute, `parseError` models a failure inside a `protoparser` collaborator,
`structError` models `struct.error` from `struct.unpack`, and
`overflowError` / `valueError` model `OverflowError` / `ValueError` raised by
`math.floor` on an infinite / NaN float. -/
inductive PyError
  | notConfigured
  | attributeError
  | parseError
  | structError
  | overflowError
  | valueError
  deriving DecidableEq, Repr

/-! ## Binary primitives (`selprotopy/common.py`) -/

/-- Recompose a least-significant-bit-first boolean list into the natural
number it denotes: `boolListToNat [b0, b1, b2]` is `b0 + 2*b1 + 4*b2`.
This is the re-composition function of the specification, used to state the
round-trip property of `int_to_bool_list`. -/
def boolListToNat (l : List Bool) : Nat :=
  l.foldr (fun b acc => (if b then 1 else 0) + 2 * acc) 0

/-- Fuelled binary decomposition of a natural number, least-significant bit
first, mirroring the digit string produced by Python `format(number, 'b')`
(read in reverse).  The fuel argument only makes the recursion structural;
`bitsLSB` supplies enough fuel that it never truncates. -/
def bitsLSBFuel : Nat → Nat → List Bool
  | 0, _ => []
  | f + 1, n => if n = 0 then [] else (n % 2 == 1) :: bitsLSBFuel f (n / 2)

/-- Binary digits of `n`, least-significant bit first, with no leading-zero
digits (empty for `n = 0`, as in Python's `format`, which renders `0` as the
single digit `'0'` handled separately below). -/
def bitsLSB (n : Nat) : List Bool :=
  bitsLSBFuel n n

/-- The digit list of Python `format(number, '04b')` for a non-negative
`number`, most-significant bit first, left-padded with `false` to a minimum
width of 4 digits. -/
def format04b (n : Nat) : List Bool :=
  let s := if n = 0 then [false] else (bitsLSB n).reverse
  List.replicate (4 - s.length) false ++ s

/-- Embedding of `common.int_to_bool_list(number, byte_like, reverse)`:
`bin_string = format(number, '04b')`; `bin_list` is its reverse mapped to
booleans; when `byte_like` holds and the length is not a multiple of 8 the
list is extended with `false` up to the next multiple of 8; `reverse`
reverses the final list.  `number` is taken as a natural number (the Python
code is only ever applied to non-negative integers). -/
def int_to_bool_list (number : Nat) (byte_like : Bool) (reverse : Bool) :
    List Bool :=
  let bin_list := (format04b number).reverse
  let bin_list :=
    if byte_like ∧ bin_list.length % 8 ≠ 0 then
      bin_list ++
        List.replicate ((bin_list.length / 8 + 1) * 8 - bin_list.length) false
    else bin_list
  if reverse then bin_list.reverse else bin_list

theorem boolListToNat_nil : boolListToNat [] = 0 := rfl

theorem boolListToNat_cons (b : Bool) (l : List Bool) :
    boolListToNat (b :: l) = (if b then 1 else 0) + 2 * boolListToNat l := rfl

theorem boolListToNat_replicate_false (k : Nat) :
    boolListToNat (List.replicate k false) = 0 := by
  induction k with
  | zero => rfl
  | succ k ih => simp [List.replicate, boolListToNat_cons, ih]

theorem boolListToNat_append_replicate (l : List Bool) (k : Nat) :
    boolListToNat (l ++ List.replicate k false) = boolListToNat l := by
  induction l with
  | nil => simpa using boolListToNat_replicate_false k
  | cons b t ih => simp [boolListToNat_cons, ih]

theorem boolListToNat_bitsLSBFuel (f : Nat) :
    ∀ n : Nat, n ≤ f → boolListToNat (bitsLSBFuel f n) = n := by
  induction f with
  | zero =>
    intro n hn
    interval_cases n
    rfl
  | succ f ih =>
    intro n hn
    by_cases h0 : n = 0
    · simp [bitsLSBFuel, h0, boolListToNat_nil]
    · have hdiv : n / 2 < n := Nat.div_lt_self (Nat.pos_of_ne_zero h0) (by omega)
      have hle : n / 2 ≤ f := by omega
      have := ih (n / 2) hle
      rcases Nat.mod_two_eq_zero_or_one n with h2 | h2 <;>
        simp [bitsLSBFuel, h0, boolListToNat_cons, this, h2] <;> omega

theorem boolListToNat_bitsLSB (n : Nat) :
    boolListToNat (bitsLSB n) = n :=
  boolListToNat_bitsLSBFuel n n le_rfl

theorem int_to_bool_list_recompose (n : Nat) :
    boolListToNat (int_to_bool_list n false false) = n := by
  unfold int_to_bool_list format04b
  by_cases h0 : n = 0
  · subst h0
    rfl
  · simp only [h0, if_false, if_neg, Bool.false_eq_true, false_and, ite_false,
      List.reverse_append, List.reverse_replicate, List.reverse_reverse]
    rw [boolListToNat_append_replicate]
    exact boolListToNat_bitsLSB n

/-- C6: for every `n ≥ 0`, recomposing `int_to_bool_list n` (least-significant
bit first, most-significant bit last) reconstructs `n`; `int_to_bool_list 8`
is `[false, false, false, true]`; with `byte_like = true` it has 8 elements
whose high (most-significant) 4 bits are all `false`. -/
theorem int_to_bool_list_roundtrip :
    (∀ n : Nat, boolListToNat (int_to_bool_list n false false) = n) ∧
    int_to_bool_list 8 false false = [false, false, false, true] ∧
    (int_to_bool_list 8 true false).length = 8 ∧
    List.drop 4 (int_to_bool_list 8 true false) =
      [false, false, false, false] := by
  refine ⟨int_to_bool_list_recompose, ?_, ?_, ?_⟩ <;> decide

/-- C7 counterexample: `int_to_bool_list 0` is not the single `false` the
claim requires — the `'04b'` format pads the digit string of `0` to four
digits, so four `false`s are produced. -/
theorem int_to_bool_list_zero_counterexample :
    int_to_bool_list 0 false false ≠ [false] := by decide

/-- C7 amended: `int_to_bool_list 0` returns four `false`s (the `'04b'`
format has a minimum field width of four binary digits), and values needing
more than 8 bits are decomposed without truncation: every value is
reconstructed by recomposition, and `256` (a 9-bit value) yields all 9 of
its bits. -/
theorem int_to_bool_list_zero_and_large :
    int_to_bool_list 0 false false = [false, false, false, false] ∧
    (∀ n : Nat, boolListToNat (int_to_bool_list n false false) = n) ∧
    (int_to_bool_list 256 false false).length = 9 := by
  refine ⟨by decide, int_to_bool_list_recompose, by decide⟩

/-! ## Session state machine (`SelClient.access_level`, `SelClient.access_level_1`) -/

/-- Label the numeric access level with the description string the source
returns next to it (`3 ↦ "CAL"`, `2 ↦ "2AC"`, `1 ↦ "ACC"`, otherwise the
empty string).  Used only to state the characterisation of `access_level`. -/
def levelLabel : Nat → String
  | 3 => "CAL"
  | 2 => "2AC"
  | 1 => "ACC"
  | _ => ""

/-- Embedding of the decision logic of `SelClient.access_level`: the client
writes a carriage return twice and accumulates the two reads into one buffer
`resp`; it then tests the `commands.LEVEL_C`, `commands.LEVEL_2` and
`commands.LEVEL_1` markers for byte-substring containment (`in` on Python
bytes), in that order, returning the first match.  The marker constants live
in the external `commands` module and are taken as parameters. -/
def access_level (LEVEL_C LEVEL_2 LEVEL_1 : List Nat) (resp : List Nat) :
    Nat × String :=
  if LEVEL_C <:+: resp then (3, "CAL")
  else if LEVEL_2 <:+: resp then (2, "2AC")
  else if LEVEL_1 <:+: resp then (1, "ACC")
  else (0, "")

/-- Embedding of `SelClient.access_level_1`: the call to `access_level`
inside it writes two carriage returns and reports the current level
(`preLevel`); the method then writes `commands.GO_ACC`, and, exactly when
`preLevel = 0`, additionally writes the password followed by
`commands.CR`; finally it reads a response `resp` and returns `False` when
the bytes `b'Invalid'` (parameter `INVALID`) occur in it, `True` otherwise.
The result is the returned boolean together with the list of transport
writes, in order. -/
def access_level_1 (CR GO_ACC INVALID password : List Nat) (preLevel : Nat)
    (resp : List Nat) : Bool × List (List Nat) :=
  let writes := [CR, CR, GO_ACC]
  let writes :=
    if preLevel = 0 then writes ++ [password ++ CR] else writes
  if INVALID <:+: resp then (false, writes) else (true, writes)

/-- C4: `access_level` returns the highest level whose prompt marker occurs
in the accumulated two-probe buffer — the level component equals the maximum
of the levels whose markers are present (CAL = 3 dominating 2AC = 2
dominating ACC = 1, with 0 when none is present) — and the accompanying
string is that level's label, so in particular `(0, "")` is returned exactly
when no marker is present. -/
theorem access_level_highest (LEVEL_C LEVEL_2 LEVEL_1 resp : List Nat) :
    access_level LEVEL_C LEVEL_2 LEVEL_1 resp =
      (max (max (if LEVEL_C <:+: resp then 3 else 0)
                (if LEVEL_2 <:+: resp then 2 else 0))
           (if LEVEL_1 <:+: resp then 1 else 0),
       levelLabel
         (max (max (if LEVEL_C <:+: resp then 3 else 0)
                   (if LEVEL_2 <:+: resp then 2 else 0))
              (if LEVEL_1 <:+: resp then 1 else 0))) := by
  by_cases hC : LEVEL_C <:+: resp <;>
    by_cases h2 : LEVEL_2 <:+: resp <;>
      by_cases h1 : LEVEL_1 <:+: resp <;>
        simp [access_level, levelLabel, hC, h2, h1]

/-- C5: elevating via `access_level_1` from level 0 transmits the password
exactly once, as a single write of the password followed by the line
terminator, after the two probe writes and the `GO_ACC` write; from a level
other than 0 the password is not transmitted at all; and the call returns
`true` exactly when the response lacks the `Invalid` rejection marker (in
particular it returns `false` whenever the marker is present). -/
theorem access_level_1_spec (CR GO_ACC INVALID password : List Nat)
    (preLevel : Nat) (resp : List Nat) :
    (preLevel = 0 →
      (access_level_1 CR GO_ACC INVALID password preLevel resp).2 =
        [CR, CR, GO_ACC, password ++ CR]) ∧
    (preLevel ≠ 0 →
      (access_level_1 CR GO_ACC INVALID password preLevel resp).2 =
        [CR, CR, GO_ACC]) ∧
    (preLevel = 0 → password ++ CR ≠ CR → password ++ CR ≠ GO_ACC →
      ((access_level_1 CR GO_ACC INVALID password preLevel resp).2).count
          (password ++ CR) = 1) ∧
    ((access_level_1 CR GO_ACC INVALID password preLevel resp).1 = true ↔
      ¬ INVALID <:+: resp) := by
  refine ⟨?_, ?_, ?_, ?_⟩
  · intro h0
    simp [access_level_1, h0]
    split <;> rfl
  · intro h0
    simp [access_level_1, h0]
    split <;> rfl
  · intro h0 hne1 hne2
    simp [access_level_1, h0]
    split <;> simp [List.count_cons, List.count_singleton, hne1, hne2,
      List.count_eq_zero_of_not_mem]
  · by_cases h : INVALID <:+: resp <;> simp [access_level_1, h]

/-- Concrete instantiation of `access_level_1_spec`: with carriage return
`[13]`, go-command `[65]`, rejection marker `[73]`, password `[80]`, prior
level 0 and a response `[1, 2]` not containing the marker, the writes are
the two probes, the go-command and the single password transmission, the
password write occurs exactly once, and the call succeeds. -/
theorem access_level_1_spec_witness :
    (access_level_1 [13] [65] [73] [80] 0 [1, 2]).2 =
      [[13], [13], [65], [80, 13]] ∧
    ((access_level_1 [13] [65] [73] [80] 0 [1, 2]).2).count ([80] ++ [13]) = 1 ∧
    (access_level_1 [13] [65] [73] [80] 0 [1, 2]).1 = true := by
  have h := access_level_1_spec [13] [65] [73] [80] 0 [1, 2]
  exact ⟨by simpa using h.1 rfl,
         h.2.2.1 rfl (by decide) (by decide),
         h.2.2.2.mpr (by decide)⟩

/-! ## IEEE-754 single-precision decoding (`common.ieee4bytefps`)

The finite-value arithmetic of the source runs on Python binary64 floats
(`struct.unpack`, `math.log10`, `round`); the embedding computes the decoded
binary32 value exactly over `ℚ` (every binary32 value is a rational and
`struct.unpack` decodes it exactly) and idealises the subsequent rounding
helper over `ℚ`.  The success/failure structure — which inputs raise and
which return a float — does not depend on that idealisation: `struct.unpack`
raises `struct.error` unless exactly 4 bytes are supplied, and for a 4-byte
input the helper `magnitude` raises (`math.floor` of an infinite float gives
`OverflowError`, of a NaN gives `ValueError`) exactly when the exponent
field of the bytes is all-ones, succeeding on every finite value. -/

/-- Embedding of the inner helper `magnitude(x)` of `ieee4bytefps`:
`0` for `x = 0`, otherwise `floor(log10 |x|) + 1`, over exact rationals. -/
def magnitude (x : ℚ) : ℤ :=
  if x = 0 then 0 else Int.log 10 |x| + 1

/-- Embedding of the inner helper `round_total_digits(x, digits)` of
`ieee4bytefps`: round `x` to `digits - magnitude x` decimal places
(idealised over `ℚ`; the source rounds a binary64 float). -/
def round_total_digits (x : ℚ) (digits : ℤ) : ℚ :=
  (round (x * (10 : ℚ) ^ (digits - magnitude x)) : ℤ) /
    (10 : ℚ) ^ (digits - magnitude x)

/-- The exponent field of a 4-byte big-endian IEEE-754 single-precision
encoding: the low 7 bits of the first byte and the top bit of the second. -/
def expField (b0 b1 : Nat) : Nat :=
  b0 % 128 * 2 + b1 / 128

/-- Embedding of `common.ieee4bytefps(binary_bytes, total_digits)`:
`struct.unpack('>f', binary_bytes)` fails with `struct.error` unless exactly
4 bytes are given; otherwise the bytes are read big-endian as sign, 8-bit
exponent field and 23-bit mantissa field.  An all-ones exponent field
encodes an infinity (zero mantissa) or NaN, on which the source's
`magnitude` helper raises `OverflowError` / `ValueError`; every other
encoding is a finite value, decoded exactly and passed through
`round_total_digits`. -/
def ieee4bytefps (binary_bytes : List Nat) (total_digits : ℤ) :
    Except PyError ℚ :=
  match binary_bytes with
  | [b0, b1, b2, b3] =>
    let sign := b0 / 128
    let e := expField b0 b1
    let m := b1 % 128 * 65536 + b2 * 256 + b3
    if e = 255 then
      if m = 0 then .error .overflowError else .error .valueError
    else
      let absVal : ℚ :=
        if e = 0 then (m : ℚ) / 2 ^ 23 * (2 : ℚ) ^ (-126 : ℤ)
        else (1 + (m : ℚ) / 2 ^ 23) * (2 : ℚ) ^ ((e : ℤ) - 127)
      let x : ℚ := if sign = 1 then -absVal else absVal
      .ok (round_total_digits x total_digits)
  | _ => .error .structError

/-- C9 counterexample: the 4-byte input `0x7f 0x80 0x00 0x00` encodes
positive infinity, on which `ieee4bytefps` raises (`math.floor` of the
infinite `log10` gives `OverflowError`) instead of returning a float — so
`ieee4bytefps` does not succeed on every 4-byte input. -/
theorem ieee4bytefps_infinity_counterexample :
    ieee4bytefps [127, 128, 0, 0] 7 = .error .overflowError := by rfl

/-- C9 amended: `ieee4bytefps` fails with the `struct.error` condition for
every input whose length is not exactly 4; a 4-byte input succeeds exactly
when its exponent field is not all-ones, i.e. when it encodes a finite
value — 4-byte encodings of an infinity or NaN raise instead of returning a
float. -/
theorem ieee4bytefps_length_and_finiteness (bs : List Nat) (d : ℤ)
    (b0 b1 b2 b3 : Nat) :
    (bs.length ≠ 4 → ieee4bytefps bs d = .error .structError) ∧
    (expField b0 b1 ≠ 255 →
      ∃ q : ℚ, ieee4bytefps [b0, b1, b2, b3] d = .ok q) ∧
    (expField b0 b1 = 255 →
      (ieee4bytefps [b0, b1, b2, b3] d).isOk = false) := by
  refine ⟨?_, ?_, ?_⟩
  · intro hlen
    match bs with
    | [] => rfl
    | [_] => rfl
    | [_, _] => rfl
    | [_, _, _] => rfl
    | [_, _, _, _] => simp at hlen
    | _ :: _ :: _ :: _ :: _ :: _ => rfl
  · intro he
    simp only [ieee4bytefps, if_neg he]
    exact ⟨_, rfl⟩
  · intro he
    simp only [ieee4bytefps, he, if_true, ite_true]
    split <;> rfl

/-- Concrete instantiation of `ieee4bytefps_length_and_finiteness`: a 3-byte
input fails with the `struct.error` condition, the 4-byte encoding of `1.0`
(exponent field 127) succeeds with some rational, and the NaN encoding
`0x7f 0xc0 0x00 0x00` (exponent field 255) does not succeed. -/
theorem ieee4bytefps_length_and_finiteness_witness :
    ieee4bytefps [1, 2, 3] 7 = .error .structError ∧
    (∃ q : ℚ, ieee4bytefps [63, 128, 0, 0] 7 = .ok q) ∧
    (ieee4bytefps [127, 192, 0, 0] 7).isOk = false := by
  refine ⟨(ieee4bytefps_length_and_finiteness [1, 2, 3] 7 63 128 0 0).1
            (by decide),
          (ieee4bytefps_length_and_finiteness [1, 2, 3] 7 63 128 0 0).2.1
            (by decide),
          (ieee4bytefps_length_and_finiteness [1, 2, 3] 7 127 192 0 0).2.2
            (by decide)⟩

/-! ## Auto-configuration sequencer and polling engine
(`SelClient.autoconfig`, `SelClient.autoconfig_fastmeter*`,
`SelClient.poll_fast_meter`)

The structured values produced by the external `protoparser` collaborators
are opaque to the client; they are modelled as simple wrapper types.  Each
parser invocation inside `autoconfig` is an `Except PyError`-valued oracle
fixed in an `AutoconfigEnv` (the parse outcome for the response bytes the
relay returned at that step); a parse failure is a raised exception, which
aborts the remaining statements of `autoconfig` while keeping every
attribute assigned so far, exactly as in Python. -/

/-- Opaque fast-meter configuration block, as returned by
`protoparser.FastMeterConfigurationBlock`. -/
structure FMConfig where
  val : Nat
  deriving DecidableEq, Repr

/-- Opaque DNA definition block, as returned by `protoparser.RelayDnaBlock`. -/
structure Dna where
  val : Nat
  deriving DecidableEq, Repr

/-- Opaque fast-meter data block, as returned by
`protoparser.FastMeterBlock`. -/
structure Reading where
  val : Nat
  deriving DecidableEq, Repr

/-- The fields of a parsed relay-definition block that `autoconfig` reads:
the three (configuration-command, command) pairs of
`definition['fmcommandinfo']` and the fast-operate / fast-message command
descriptors. -/
structure RelayDef where
  cfg1 : List Nat
  cmd1 : List Nat
  cfg2 : List Nat
  cmd2 : List Nat
  cfg3 : List Nat
  cmd3 : List Nat
  fop : List Nat
  fmsg : List Nat
  deriving DecidableEq, Repr

/-- The identity fields of a parsed ID block read by `autoconfig`. -/
structure IdBlock where
  FID : String
  BFID : String
  CID : String
  DEVID : String
  PARTNO : String
  CONFIG : String
  deriving DecidableEq, Repr

/-- The attributes of a `SelClient` instance touched by auto-configuration
and polling.  `fastMeterDef`, `fastDemandDef` and `fastPkDemandDef` are
`None` until assigned (as in `__init__`); `dnaDef = none` models the
`dnaDef` attribute never having been assigned at all — `__init__` does not
initialise it, so reading it before `autoconfig` stores it raises
`AttributeError`. -/
structure SelState where
  fmconfigcommand1 : List Nat
  fmcommand1 : List Nat
  fmconfigcommand2 : List Nat
  fmcommand2 : List Nat
  fmconfigcommand3 : List Nat
  fmcommand3 : List Nat
  fopcommandinfo : List Nat
  fmsgcommandinfo : List Nat
  fastMeterDef : Option FMConfig
  fastDemandDef : Option FMConfig
  fastPkDemandDef : Option FMConfig
  dnaDef : Option Dna
  fid : String
  bfid : String
  cid : String
  devid : String
  partno : String
  config : String
  deriving DecidableEq, Repr

/-- The client state right after `__init__` (before any auto-configuration):
command attributes hold the `commands`-module defaults (opaque here, taken
as empty byte strings), the three fast-meter definitions are `None`, the
`dnaDef` attribute is unassigned and the identity strings are empty. -/
def initialState : SelState where
  fmconfigcommand1 := []
  fmcommand1 := []
  fmconfigcommand2 := []
  fmcommand2 := []
  fmconfigcommand3 := []
  fmcommand3 := []
  fopcommandinfo := []
  fmsgcommandinfo := []
  fastMeterDef := none
  fastDemandDef := none
  fastPkDemandDef := none
  dnaDef := none
  fid := ""
  bfid := ""
  cid := ""
  devid := ""
  partno := ""
  config := ""

/-- The parse outcomes of the six parser invocations of one `autoconfig`
run, in sequence order: relay definition, the three fast-meter
configuration blocks (regular, demand, peak-demand), the DNA block and the
ID block. -/
structure AutoconfigEnv where
  defParse : Except PyError RelayDef
  fm1Parse : Except PyError FMConfig
  fm2Parse : Except PyError FMConfig
  fm3Parse : Except PyError FMConfig
  dnaParse : Except PyError Dna
  idParse : Except PyError IdBlock

/-- Embedding of `SelClient.autoconfig_fastmeter`: writes the regular
configuration command and stores the parsed block in `fastMeterDef`; a
parse failure propagates with the state unchanged. -/
def autoconfig_fastmeter (parse : Except PyError FMConfig) (s : SelState) :
    SelState × Option PyError :=
  match parse with
  | .error e => (s, some e)
  | .ok c => ({ s with fastMeterDef := some c }, none)

/-- Embedding of `SelClient.autoconfig_fastmeter_demand`: stores the parsed
block in `fastDemandDef`; a parse failure propagates with the state
unchanged. -/
def autoconfig_fastmeter_demand (parse : Except PyError FMConfig)
    (s : SelState) : SelState × Option PyError :=
  match parse with
  | .error e => (s, some e)
  | .ok c => ({ s with fastDemandDef := some c }, none)

/-- Embedding of `SelClient.autoconfig_fastmeter_peakdemand`: stores the
parsed block in `fastPkDemandDef`; a parse failure propagates with the
state unchanged. -/
def autoconfig_fastmeter_peakdemand (parse : Except PyError FMConfig)
    (s : SelState) : SelState × Option PyError :=
  match parse with
  | .error e => (s, some e)
  | .ok c => ({ s with fastPkDemandDef := some c }, none)

/-- Embedding of `SelClient.autoconfig`, statement for statement: parse the
relay-definition block and load the six command attributes plus the
fast-operate / fast-message descriptors; run the three fast-meter
configuration steps in order; parse and store the DNA block; parse the ID
block and store the six identity strings; return the FID.  Any parse
failure raises, aborting the remaining statements but keeping every
attribute assigned before it (the access-level escalation of step 1 touches
no configuration attribute and is omitted from the state). -/
def autoconfig (env : AutoconfigEnv) (s : SelState) :
    SelState × Except PyError String :=
  match env.defParse with
  | .error e => (s, .error e)
  | .ok d =>
    let s := { s with
      fmconfigcommand1 := d.cfg1, fmcommand1 := d.cmd1,
      fmconfigcommand2 := d.cfg2, fmcommand2 := d.cmd2,
      fmconfigcommand3 := d.cfg3, fmcommand3 := d.cmd3,
      fopcommandinfo := d.fop, fmsgcommandinfo := d.fmsg }
    match autoconfig_fastmeter env.fm1Parse s with
    | (s1, some e) => (s1, .error e)
    | (s1, none) =>
      match autoconfig_fastmeter_demand env.fm2Parse s1 with
      | (s2, some e) => (s2, .error e)
      | (s2, none) =>
        match autoconfig_fastmeter_peakdemand env.fm3Parse s2 with
        | (s3, some e) => (s3, .error e)
        | (s3, none) =>
          match env.dnaParse with
          | .error e => (s3, .error e)
          | .ok dna =>
            let s4 := { s3 with dnaDef := some dna }
            match env.idParse with
            | .error e => (s4, .error e)
            | .ok idb =>
              let s5 := { s4 with
                fid := idb.FID, bfid := idb.BFID, cid := idb.CID,
                devid := idb.DEVID, partno := idb.PARTNO,
                config := idb.CONFIG }
              (s5, .ok s5.fid)

/-- Embedding of `SelClient.poll_fast_meter`: if `fastMeterDef` is `None`,
raise the not-configured `ValueError` before touching the transport;
otherwise optionally escalate (the writes of `access_level_1` /
`access_level_2` are abstracted as `escalationWrites`), write the
fast-meter command followed by `commands.CR`, read until the command echoes
back, and hand the response together with `fastMeterDef` and `dnaDef` to
`protoparser.FastMeterBlock` (oracle `dataParse`); evaluating the argument
`self.dnaDef` raises `AttributeError` when that attribute was never
assigned.  Returns the ordered transport writes and the outcome. -/
def poll_fast_meter (CR : List Nat) (escalationWrites : List (List Nat))
    (minAccLevel : Nat) (dataParse : FMConfig → Dna → Except PyError Reading)
    (s : SelState) : List (List Nat) × Except PyError Reading :=
  match s.fastMeterDef with
  | none => ([], .error .notConfigured)
  | some cfg =>
    let writes :=
      if minAccLevel = 1 ∨ minAccLevel = 2 then escalationWrites else []
    let writes := writes ++ [s.fmcommand1 ++ CR]
    match s.dnaDef with
    | none => (writes, .error .attributeError)
    | some dna => (writes, dataParse cfg dna)

/-- An auto-configuration run in which exactly the regular fast-meter
variant's parse fails while every other exchange would parse
successfully. -/
def envVariantFail : AutoconfigEnv where
  defParse := .ok ⟨[1], [2], [3], [4], [5], [6], [7], [8]⟩
  fm1Parse := .error .parseError
  fm2Parse := .ok ⟨21⟩
  fm3Parse := .ok ⟨22⟩
  dnaParse := .ok ⟨30⟩
  idParse := .ok ⟨"F", "B", "C", "D", "P", "G"⟩

/-- C1 counterexample: in a run where exactly the regular variant's parse
fails (demand and peak-demand would parse fine), the demand and peak-demand
configurations are NOT stored — the raised parse error aborts `autoconfig`
before their exchanges are requested — refuting the claimed independence of
the three variants. -/
theorem autoconfig_variant_independence_counterexample :
    (autoconfig envVariantFail initialState).2 = .error .parseError ∧
    (autoconfig envVariantFail initialState).1.fastDemandDef = none ∧
    (autoconfig envVariantFail initialState).1.fastPkDemandDef = none :=
  ⟨rfl, rfl, rfl⟩

/-- C1 amended: a parse failure in one fast-meter variant aborts the rest of
`autoconfig`: the variants sequenced before the failing one are stored, and
the variants after it keep their previous values (their exchanges are never
requested); the failure surfaces as the run's error. -/
theorem autoconfig_variant_failure_aborts (env : AutoconfigEnv) (s : SelState)
    (d : RelayDef) (hd : env.defParse = .ok d) :
    (∀ e, env.fm1Parse = .error e →
      (autoconfig env s).1.fastMeterDef = s.fastMeterDef ∧
      (autoconfig env s).1.fastDemandDef = s.fastDemandDef ∧
      (autoconfig env s).1.fastPkDemandDef = s.fastPkDemandDef ∧
      (autoconfig env s).2 = .error e) ∧
    (∀ c1 e, env.fm1Parse = .ok c1 → env.fm2Parse = .error e →
      (autoconfig env s).1.fastMeterDef = some c1 ∧
      (autoconfig env s).1.fastDemandDef = s.fastDemandDef ∧
      (autoconfig env s).1.fastPkDemandDef = s.fastPkDemandDef ∧
      (autoconfig env s).2 = .error e) ∧
    (∀ c1 c2 e, env.fm1Parse = .ok c1 → env.fm2Parse = .ok c2 →
      env.fm3Parse = .error e →
      (autoconfig env s).1.fastMeterDef = some c1 ∧
      (autoconfig env s).1.fastDemandDef = some c2 ∧
      (autoconfig env s).1.fastPkDemandDef = s.fastPkDemandDef ∧
      (autoconfig env s).2 = .error e) := by
  refine ⟨?_, ?_, ?_⟩
  · intro e h1
    simp [autoconfig, autoconfig_fastmeter, hd, h1]
  · intro c1 e h1 h2
    simp [autoconfig, autoconfig_fastmeter, autoconfig_fastmeter_demand,
      hd, h1, h2]
  · intro c1 c2 e h1 h2 h3
    simp [autoconfig, autoconfig_fastmeter, autoconfig_fastmeter_demand,
      autoconfig_fastmeter_peakdemand, hd, h1, h2, h3]

/-- An auto-configuration run in which exactly the demand variant's parse
fails. -/
def envDemandFail : AutoconfigEnv where
  defParse := .ok ⟨[1], [2], [3], [4], [5], [6], [7], [8]⟩
  fm1Parse := .ok ⟨41⟩
  fm2Parse := .error .parseError
  fm3Parse := .ok ⟨43⟩
  dnaParse := .ok ⟨44⟩
  idParse := .ok ⟨"F", "B", "C", "D", "P", "G"⟩

/-- Concrete instantiation of `autoconfig_variant_failure_aborts`: when the
demand variant's parse fails, the regular configuration (sequenced before
it) is stored, the demand and peak-demand configurations stay unset, and
the run surfaces the parse error. -/
theorem autoconfig_variant_failure_aborts_witness :
    (autoconfig envDemandFail initialState).1.fastMeterDef = some ⟨41⟩ ∧
    (autoconfig envDemandFail initialState).1.fastDemandDef = none ∧
    (autoconfig envDemandFail initialState).1.fastPkDemandDef = none ∧
    (autoconfig envDemandFail initialState).2 = .error .parseError := by
  have h := (autoconfig_variant_failure_aborts envDemandFail initialState
      ⟨[1], [2], [3], [4], [5], [6], [7], [8]⟩ rfl).2.1 ⟨41⟩ .parseError rfl rfl
  exact ⟨h.1, h.2.1, h.2.2.1, h.2.2.2⟩

/-- A fully successful first auto-configuration run. -/
def envFirstRun : AutoconfigEnv where
  defParse := .ok ⟨[1], [2], [3], [4], [5], [6], [7], [8]⟩
  fm1Parse := .ok ⟨10⟩
  fm2Parse := .ok ⟨11⟩
  fm3Parse := .ok ⟨12⟩
  dnaParse := .ok ⟨13⟩
  idParse := .ok ⟨"FID1", "B1", "C1", "D1", "P1", "G1"⟩

/-- A re-run that aborts at the demand variant's parse, after having stored
a fresh relay definition and a fresh regular fast-meter configuration. -/
def envRerun : AutoconfigEnv where
  defParse := .ok ⟨[21], [22], [23], [24], [25], [26], [27], [28]⟩
  fm1Parse := .ok ⟨20⟩
  fm2Parse := .error .parseError
  fm3Parse := .ok ⟨99⟩
  dnaParse := .ok ⟨98⟩
  idParse := .ok ⟨"FID2", "B2", "C2", "D2", "P2", "G2"⟩

/-- The client state after a successful first auto-configuration run. -/
def priorState : SelState :=
  (autoconfig envFirstRun initialState).1

/-- The client state after the aborted re-run on top of `priorState`. -/
def rerunState : SelState :=
  (autoconfig envRerun priorState).1

/-- C2 counterexample: a re-run of `autoconfig` that aborts at the demand
variant's parse leaves a mixture of new and stale fields — the regular
fast-meter configuration is the new one, while the demand configuration and
the FID are stale values of the first run — and the polling precondition
(`fastMeterDef` set) is still satisfied, so the aborted re-run IS observable
to the polling engine as a ready configuration. -/
theorem autoconfig_rerun_counterexample :
    (autoconfig envRerun priorState).2 = .error .parseError ∧
    rerunState.fastMeterDef = some ⟨20⟩ ∧
    rerunState.fastDemandDef = some ⟨11⟩ ∧
    rerunState.fid = "FID1" ∧
    rerunState.fastMeterDef ≠ none :=
  ⟨rfl, rfl, rfl, rfl, by decide⟩

/-- A re-run whose relay-definition parse fails immediately. -/
def envDefFail : AutoconfigEnv where
  defParse := .error .parseError
  fm1Parse := .ok ⟨1⟩
  fm2Parse := .ok ⟨2⟩
  fm3Parse := .ok ⟨3⟩
  dnaParse := .ok ⟨4⟩
  idParse := .ok ⟨"F", "B", "C", "D", "P", "G"⟩

/-- C2 amended: re-running `autoconfig` replaces fields step by step, not
atomically: whenever the prior run stored a regular fast-meter
configuration, the polling precondition remains satisfied after ANY re-run,
aborted or not (no step ever clears `fastMeterDef`); and a re-run whose
relay-definition parse fails leaves the entire prior state unchanged — all
stale fields stay observable. -/
theorem autoconfig_rerun_precondition (env : AutoconfigEnv) (s : SelState) :
    (s.fastMeterDef.isSome → ((autoconfig env s).1).fastMeterDef.isSome) ∧
    (∀ e, env.defParse = .error e → autoconfig env s = (s, .error e)) := by
  constructor
  · intro h
    obtain ⟨dp, p1, p2, p3, dnap, idp⟩ := env
    cases dp <;> cases p1 <;> cases p2 <;> cases p3 <;> cases dnap <;>
      cases idp <;>
      simp_all [autoconfig, autoconfig_fastmeter, autoconfig_fastmeter_demand,
        autoconfig_fastmeter_peakdemand]
  · intro e he
    simp [autoconfig, he]

/-- Concrete instantiation of `autoconfig_rerun_precondition`: after the
successful first run, the aborted `envRerun` re-run still leaves the polling
precondition satisfied, and the `envDefFail` re-run returns the prior state
untouched together with the parse error. -/
theorem autoconfig_rerun_precondition_witness :
    ((autoconfig envRerun priorState).1).fastMeterDef.isSome ∧
    autoconfig envDefFail priorState = (priorState, .error .parseError) := by
  exact ⟨(autoconfig_rerun_precondition envRerun priorState).1 (by decide),
         (autoconfig_rerun_precondition envDefFail priorState).2
           .parseError rfl⟩

/-- C3: polling a client whose regular fast-meter configuration was never
set fails with the not-configured condition and performs zero transport
writes — the guard precedes every write. -/
theorem poll_fast_meter_not_configured (CR : List Nat)
    (escalationWrites : List (List Nat)) (minAccLevel : Nat)
    (dataParse : FMConfig → Dna → Except PyError Reading) (s : SelState)
    (h : s.fastMeterDef = none) :
    poll_fast_meter CR escalationWrites minAccLevel dataParse s =
      ([], .error .notConfigured) := by
  simp [poll_fast_meter, h]

/-- Concrete instantiation of `poll_fast_meter_not_configured`: on the
freshly initialised client state the poll fails with the not-configured
condition and writes nothing. -/
theorem poll_fast_meter_not_configured_witness :
    initialState.fastMeterDef = none ∧
    poll_fast_meter [13] [] 0 (fun _ _ => .ok ⟨0⟩) initialState =
      ([], .error .notConfigured) :=
  ⟨rfl, poll_fast_meter_not_configured [13] [] 0 (fun _ _ => .ok ⟨0⟩)
      initialState rfl⟩

/-- C10: the readiness guard of `poll_fast_meter` inspects only
`fastMeterDef`: on a state where the regular fast-meter configuration is
present but `dnaDef` was never assigned, the poll passes the guard, writes
the fast-meter command (after any requested escalation writes), and then
fails with the missing-attribute error when evaluating `self.dnaDef` for the
block parser. -/
theorem poll_fast_meter_missing_dna (CR : List Nat)
    (escalationWrites : List (List Nat)) (minAccLevel : Nat)
    (dataParse : FMConfig → Dna → Except PyError Reading) (s : SelState)
    (cfg : FMConfig) (hc : s.fastMeterDef = some cfg)
    (hd : s.dnaDef = none) :
    poll_fast_meter CR escalationWrites minAccLevel dataParse s =
      ((if minAccLevel = 1 ∨ minAccLevel = 2 then escalationWrites else []) ++
        [s.fmcommand1 ++ CR],
       .error .attributeError) := by
  simp [poll_fast_meter, hc, hd]

/-- Concrete instantiation of `poll_fast_meter_missing_dna`: on a client
where only the regular fast-meter configuration step ran (so `dnaDef` is
unassigned), polling at access level 0 writes exactly the fast-meter
command and then fails with the missing-attribute error. -/
theorem poll_fast_meter_missing_dna_witness :
    poll_fast_meter [13] [] 0 (fun _ _ => .ok ⟨0⟩)
        { initialState with fastMeterDef := some ⟨1⟩ } =
      ([[13]], .error .attributeError) := by
  have h := poll_fast_meter_missing_dna [13] [] 0 (fun _ _ => .ok ⟨0⟩)
      { initialState with fastMeterDef := some ⟨1⟩ } ⟨1⟩ rfl rfl
  simpa using h

end Selprotopy
